import Mathlib

/-!
Verification of the smart_scraper core of the Shopify-Service-Python
repository (files `app/smart_scraper/extractors.py`,
`app/smart_scraper/search_engine.py`, `app/smart_scraper/scraper_service.py`).

The Python code is shallowly embedded:

* Python values stored in a spreadsheet row are modelled by `PyVal`
  (`None` or a string); a row (Python `dict`) is an insertion-ordered
  association list, with `dict.get` / assignment modelled by
  `rowLookup` / `rowSet` (assignment to an existing key keeps its
  position, as CPython dicts do).
* The network is an oracle `Net : String → FetchOutcome`: for each URL,
  `requests.get` either raises (timeout, connection error, ...) or
  returns a final response with a status code and a parsed body.
  `fetch` (extractors.py) and `get_search_page` (search_engine.py) wrap
  the oracle in the `try/except: return None` of the source.  The
  headers / proxy arguments of `requests.get` do not influence the
  oracle and are omitted.  Python truthiness of a `requests.Response`
  is `Response.ok`, i.e. status not in [400, 600): `response_ok`.
* BeautifulSoup parsing is modelled by `HtmlDoc`, which carries exactly
  the projections the source reads: the raw lowercase-able text (for
  `detect_platform`), the document-order anchor list (for the
  `select_one("a[...]")` calls), the text of the first match of each
  product-page selector, the `img` elements with their `data-src` /
  `src` attributes, and the stripped texts of `select option` elements.
  Every anchor is assumed to carry an `href` attribute (the CSS
  patterns of rules 1 and 3 require one).
* `urllib.parse.quote` is implemented faithfully (UTF-8 percent
  encoding with safe set alphanumerics, `_.-~` and `/`).
  `urllib.parse.urljoin` is Python standard library code and is kept as
  an explicit function parameter `uj`; no claim depends on its value.
* Python's `list(set(imgs))` in `scrape_product` deduplicates but
  iterates the set in an unspecified, hash-seed dependent order; it is
  modelled by a function parameter `pset` constrained by `PySetOK`
  (result is duplicate-free and has the same members as the input).
* Each instrumented function `…_t` additionally returns the
  chronological list of fetch events (`Ev`), tagged by call site, so
  that claims about which requests are attempted can be stated.
-/

set_option autoImplicit false

namespace ShopifyScraper

/-- Python value stored in a row: either `None` or a string. -/
inductive PyVal where
  | none : PyVal
  | str : String → PyVal
  deriving DecidableEq, Repr

/-- Python truthiness for `PyVal`: `None` and the empty string are falsy. -/
def pyTruthy : PyVal → Bool
  | PyVal.none => false
  | PyVal.str s => !s.isEmpty

/-- Python `a or b` on row values. -/
def pyOr (a b : PyVal) : PyVal :=
  if pyTruthy a then a else b

/-- Python `format(v)` as used by an f-string: `None` prints as "None". -/
def pyFormat : PyVal → String
  | PyVal.none => "None"
  | PyVal.str s => s

/-- A row is a Python dict: an insertion-ordered association list. -/
abbrev Row := List (String × PyVal)

/-- Lookup of a key in a row, `none` when the key is absent. -/
def rowLookup : Row → String → Option PyVal
  | [], _ => Option.none
  | (k, v) :: rest, k0 => if k = k0 then some v else rowLookup rest k0

/-- Python `row.get(key, default)`. -/
def rowGetD (row : Row) (k : String) (d : PyVal) : PyVal :=
  (rowLookup row k).getD d

/-- Python `row.get(key)` (default `None`). -/
def rowGetN (row : Row) (k : String) : PyVal :=
  rowGetD row k PyVal.none

/-- Python `row[key] = v`: overwrite in place, append when absent. -/
def rowSet : Row → String → PyVal → Row
  | [], k0, v0 => [(k0, v0)]
  | (k, v) :: rest, k0, v0 =>
      if k = k0 then (k, v0) :: rest else (k, v) :: rowSet rest k0 v0

/-- Substring test on character lists (Python `pat in s`). -/
def listContainsSub (pat : List Char) : List Char → Bool
  | [] => pat.isEmpty
  | c :: rest => pat.isPrefixOf (c :: rest) || listContainsSub pat rest

/-- Python `pat in s` for strings. -/
def strContains (s pat : String) : Bool :=
  listContainsSub pat.toList s.toList

/-- Python `s.lower()` (ASCII lowering; the signature tokens the source
tests are ASCII). -/
def strLower (s : String) : String :=
  ⟨s.toList.map Char.toLower⟩

/-- Python `s.startswith(pre)`. -/
def strStartsWith (s pre : String) : Bool :=
  pre.toList.isPrefixOf s.toList

/-- Splitting a character list on a non-empty separator, scanning left
to right without overlap, as Python `str.split(sep)` does.  The fuel
argument (instantiated with the length of the list, always sufficient
since the separator is non-empty) makes the recursion structural. -/
def splitOnAux (sep : List Char) : Nat → List Char → List (List Char)
  | _, [] => [[]]
  | 0, l => [l]
  | fuel + 1, c :: rest =>
    if sep.isEmpty then [c :: rest]
    else if sep.isPrefixOf (c :: rest) then
      [] :: splitOnAux sep fuel ((c :: rest).drop sep.length)
    else
      match splitOnAux sep fuel rest with
      | [] => [[c]]
      | g :: gs => (c :: g) :: gs

/-- Splitting of a character list on a separator. -/
def splitOnList (sep l : List Char) : List (List Char) :=
  splitOnAux sep l.length l

/-- Python `s.split(sep)` for a non-empty separator. -/
def strSplitOn (s sep : String) : List String :=
  (splitOnList sep.toList s.toList).map (fun l => ⟨l⟩)

/-- Python `s.replace(pat, rep)` for a non-empty pattern: equal to
`rep.join(s.split(pat))`, both scanning left to right without
overlap. -/
def strReplace (s pat rep : String) : String :=
  ⟨List.intercalate rep.toList (splitOnList pat.toList s.toList)⟩

/-- An anchor element: its `href` attribute value and whether it carries
the `woocommerce-loop-product__link` class. -/
structure Anchor where
  href : String
  wooLoop : Bool
  deriving DecidableEq, Repr

/-- An `img` element: its `data-src` and `src` attributes (`none` when
the attribute is absent, as `img.get` returns `None`). -/
structure ImgEl where
  dataSrc : Option String
  src : Option String
  deriving DecidableEq, Repr

/-- Parsed document: exactly the projections of a BeautifulSoup tree the
source reads.  `titleText`, `priceText`, `descMarkup` are the results of
the three `select_one` calls of `scrape_product` (stripped text for
title and price, raw markup via `str(...)` for the description), `none`
when the selector has no match. -/
structure HtmlDoc where
  raw : String
  anchors : List Anchor
  titleText : Option String
  priceText : Option String
  descMarkup : Option String
  imgs : List ImgEl
  optionTexts : List String
  deriving DecidableEq, Repr

/-- A document with no content at all. -/
def emptyDoc : HtmlDoc :=
  ⟨"", [], Option.none, Option.none, Option.none, [], []⟩

/-- Outcome of one `requests.get` call: the request either raises or
delivers a final response (status code plus parsed body). -/
inductive FetchOutcome where
  | raise : FetchOutcome
  | resp : Nat → HtmlDoc → FetchOutcome
  deriving DecidableEq, Repr

/-- Network oracle: what `requests.get` does for each URL. -/
abbrev Net := String → FetchOutcome

/-- HTTP response as the source sees it. -/
structure Response where
  status : Nat
  body : HtmlDoc

/-- Python truthiness of a `requests.Response` (`Response.ok`): false
exactly for status codes in [400, 600). -/
def response_ok (s : Nat) : Bool :=
  !(400 ≤ s && s < 600)

/-- Truthiness of an optional response (`if not res: ...`). -/
def optRespTruthy : Option Response → Bool
  | Option.none => false
  | some r => response_ok r.status

/-- extractors.py `fetch`: `try: return requests.get(...) except: return None`. -/
def fetch (net : Net) (url : String) : Option Response :=
  match net url with
  | FetchOutcome.raise => Option.none
  | FetchOutcome.resp s d => some ⟨s, d⟩

/-- search_engine.py `get_search_page`: identical body to `fetch`. -/
def get_search_page (net : Net) (url : String) : Option Response :=
  match net url with
  | FetchOutcome.raise => Option.none
  | FetchOutcome.resp s d => some ⟨s, d⟩

/-- UTF-8 bytes of a character (as naturals). -/
def utf8Bytes (c : Char) : List Nat :=
  let n := c.toNat
  if n < 128 then [n]
  else if n < 2048 then [192 + n / 64, 128 + n % 64]
  else if n < 65536 then [224 + n / 4096, 128 + (n / 64) % 64, 128 + n % 64]
  else [240 + n / 262144, 128 + (n / 4096) % 64, 128 + (n / 64) % 64, 128 + n % 64]

/-- Uppercase hexadecimal digit. -/
def hexDig (n : Nat) : Char :=
  if n < 10 then Char.ofNat (48 + n) else Char.ofNat (55 + n)

/-- Bytes `urllib.parse.quote` leaves untouched with the default
`safe="/"`: alphanumerics, `-`, `.`, `_`, `~` and `/`. -/
def quoteSafeByte (b : Nat) : Bool :=
  (48 ≤ b && b ≤ 57) || (65 ≤ b && b ≤ 90) || (97 ≤ b && b ≤ 122) ||
    b == 45 || b == 46 || b == 95 || b == 126 || b == 47

/-- Percent-encoding of one byte. -/
def quoteByte (b : Nat) : String :=
  if quoteSafeByte b then String.singleton (Char.ofNat b)
  else String.singleton '%' ++ String.singleton (hexDig (b / 16)) ++
    String.singleton (hexDig (b % 16))

/-- urllib.parse.quote with the default safe set. -/
def pyQuote (s : String) : String :=
  String.join (((s.toList.map utf8Bytes).flatten).map quoteByte)

/-- search_engine.py `detect_platform`. -/
def detect_platform (html : String) : String :=
  let h := strLower html
  if strContains h "woocommerce" || strContains h "wp-content" then "wordpress"
  else if strContains h "shopify" then "shopify"
  else "custom"

/-- search_engine.py `search_wordpress`. -/
def search_wordpress (base query : String) : String :=
  base ++ "/?s=" ++ pyQuote query ++ "&post_type=product"

/-- search_engine.py `search_shopify`. -/
def search_shopify (base query : String) : String :=
  base ++ "/search?q=" ++ pyQuote query

/-- search_engine.py `search_custom`. -/
def search_custom (base query : String) : String :=
  base ++ "/search?q=" ++ pyQuote query

/-- search_engine.py `google_search`. -/
def google_search (query : String) : String :=
  "https://www.google.com/search?q=" ++ pyQuote query

/-- Platform dispatch inside the `find_product_url` loop
(`if platform == "wordpress": ... elif ... else ...`). -/
def build_search_url (platform base term : String) : String :=
  if platform = "wordpress" then search_wordpress base term
  else if platform = "shopify" then search_shopify base term
  else search_custom base term

/-- Candidate extraction from a search-result page: the three
`select_one` calls of `find_product_url`, each resolved against
`base_url` with `urllib.parse.urljoin` (the parameter `uj`).
`select_one("a[href*=X]")` is the first anchor in document order whose
href contains `X`; `select_one("a.woocommerce-loop-product__link")` is
the first anchor carrying that class. -/
def extract_candidate (uj : String → String → String) (base_url : String)
    (anchors : List Anchor) : Option String :=
  match anchors.find? (fun a => strContains a.href "/products/") with
  | some l => some (uj base_url l.href)
  | Option.none =>
    match anchors.find? (fun a => a.wooLoop) with
    | some l => some (uj base_url l.href)
    | Option.none =>
      match anchors.find? (fun a => strContains a.href "product") with
      | some l => some (uj base_url l.href)
      | Option.none => Option.none

/-- Fetch event, tagged by call site, used to record which requests the
engine attempts and in which order. -/
inductive Ev where
  | home : String → Ev
  | search : String → Ev
  | google : String → Ev
  | product : String → Ev
  deriving DecidableEq, Repr

/-- True only for the external search-fallback fetch event. -/
def isGoogleEv : Ev → Bool
  | Ev.google _ => true
  | _ => false

/-- The `for term in search_terms:` loop of `find_product_url`:
skips falsy terms, builds the platform search URL, fetches it
(continuing on an unavailable page), and short-circuits on the first
candidate.  Returns the candidate (if any) and the fetch events of the
loop in order. -/
def try_terms (uj : String → String → String) (net : Net) (base_url platform : String) :
    List PyVal → Option String × List Ev
  | [] => (Option.none, [])
  | term :: rest =>
    if pyTruthy term then
      let surl := build_search_url platform base_url (pyFormat term)
      match get_search_page net surl with
      | Option.none =>
        let r := try_terms uj net base_url platform rest
        (r.1, Ev.search surl :: r.2)
      | some res =>
        if response_ok res.status then
          match extract_candidate uj base_url res.body.anchors with
          | some u => (some u, [Ev.search surl])
          | Option.none =>
            let r := try_terms uj net base_url platform rest
            (r.1, Ev.search surl :: r.2)
        else
          let r := try_terms uj net base_url platform rest
          (r.1, Ev.search surl :: r.2)
    else try_terms uj net base_url platform rest

/-- Strip applied to the href returned by the Google fallback:
`link["href"].replace("/url?q=", "").split("&")[0]`. -/
def google_strip (href : String) : String :=
  (strSplitOn (strReplace href "/url?q=" "") "&").headD ""

/-- search_engine.py `find_product_url`, instrumented with the list of
fetch events.  `name` and `sku` are the Python values passed by the
caller (either may be `None` or empty and is then skipped by the loop;
the Google query interpolates `name` with f-string formatting). -/
def find_product_url_t (uj : String → String → String) (net : Net)
    (base_url : String) (name sku : PyVal) : Option String × List Ev :=
  let search_terms := [sku, name]
  match get_search_page net base_url with
  | Option.none => (Option.none, [Ev.home base_url])
  | some home =>
    if response_ok home.status then
      let platform := detect_platform home.body.raw
      let r := try_terms uj net base_url platform search_terms
      match r.1 with
      | some u => (some u, Ev.home base_url :: r.2)
      | Option.none =>
        let g_url := google_search (pyFormat name ++ " site:" ++ base_url)
        let result :=
          match get_search_page net g_url with
          | Option.none => Option.none
          | some gres =>
            if response_ok gres.status then
              match gres.body.anchors.find? (fun a => strContains a.href "/product") with
              | some l => some (google_strip l.href)
              | Option.none => Option.none
            else Option.none
        (result, Ev.home base_url :: r.2 ++ [Ev.google g_url])
    else (Option.none, [Ev.home base_url])

/-- search_engine.py `find_product_url` (result only). -/
def find_product_url (uj : String → String → String) (net : Net)
    (base_url : String) (name sku : PyVal) : Option String :=
  (find_product_url_t uj net base_url name sku).1

/-- Record built by `scrape_product` on a successfully fetched page. -/
structure ScrapedProduct where
  title : String
  price : String
  description : String
  images : List String
  variants : List String
  deriving DecidableEq, Repr

/-- Return value of `scrape_product`: `Option.none` models the empty
dict `{}` returned when the page is unavailable. -/
abbrev Scraped := Option ScrapedProduct

/-- Python `scraped.get(k)` for the three text keys: `None` on the
empty dict. -/
def sgetTitle : Scraped → PyVal
  | Option.none => PyVal.none
  | some p => PyVal.str p.title

/-- Python `scraped.get("price")`. -/
def sgetPrice : Scraped → PyVal
  | Option.none => PyVal.none
  | some p => PyVal.str p.price

/-- Python `scraped.get("description")`. -/
def sgetDescription : Scraped → PyVal
  | Option.none => PyVal.none
  | some p => PyVal.str p.description

/-- Python `scraped.get("images", [])`. -/
def sgetImages : Scraped → List String
  | Option.none => []
  | some p => p.images

/-- Python `scraped.get("variants", [])`. -/
def sgetVariants : Scraped → List String
  | Option.none => []
  | some p => p.variants

/-- Python `a or b` on optional attribute values (`img.get("data-src")
or img.get("src")`): the first operand wins unless it is `None` or the
empty string. -/
def pyOrOpt (a b : Option String) : Option String :=
  match a with
  | some s => if s.isEmpty then b else some s
  | Option.none => b

/-- The image-collection loop of `scrape_product`: for each `img`
element take `data-src` falling back to `src`, and keep the value when
it is truthy and starts with "http".  Duplicates are kept; the `set`
is applied afterwards. -/
def collect_imgs : List ImgEl → List String
  | [] => []
  | im :: rest =>
    match pyOrOpt im.dataSrc im.src with
    | some s =>
      if !s.isEmpty && strStartsWith s "http" then s :: collect_imgs rest
      else collect_imgs rest
    | Option.none => collect_imgs rest

/-- Admissibility of a model of Python's `list(set(·))`: the result is
duplicate-free and has exactly the members of the input.  CPython's set
iteration order is hash-seed dependent and is left unconstrained. -/
def PySetOK (pset : List String → List String) : Prop :=
  ∀ l : List String, (pset l).Nodup ∧ ∀ x : String, x ∈ pset l ↔ x ∈ l

/-- The variant-collection loop of `scrape_product`: stripped option
texts that are non-empty and not the placeholder "choose an option"
(case-insensitively). -/
def collect_variants (opts : List String) : List String :=
  opts.filter (fun t => !t.isEmpty && strLower t ≠ "choose an option")

/-- extractors.py `scrape_product`, instrumented with its fetch event.
Returns `{}` (modelled `Option.none`) when the page is unavailable;
otherwise builds the field dict with first-match selector results. -/
def scrape_product_t (pset : List String → List String) (net : Net)
    (url : String) : Scraped × List Ev :=
  match fetch net url with
  | Option.none => (Option.none, [Ev.product url])
  | some res =>
    if response_ok res.status then
      let d := res.body
      let title := (d.titleText).getD ""
      let price := (d.priceText).getD ""
      let desc := (d.descMarkup).getD ""
      let imgs := pset (collect_imgs d.imgs)
      let variants := collect_variants d.optionTexts
      (some ⟨title, price, desc, imgs, variants⟩, [Ev.product url])
    else (Option.none, [Ev.product url])

/-- extractors.py `scrape_product` (result only). -/
def scrape_product (pset : List String → List String) (net : Net)
    (url : String) : Scraped :=
  (scrape_product_t pset net url).1

/-- scraper_service.py line 5: `name = row.get("TITLE", "")`. -/
def rowName (row : Row) : PyVal := rowGetD row "TITLE" (PyVal.str "")

/-- scraper_service.py line 6: `sku = row.get("SKU", "")`. -/
def rowSku (row : Row) : PyVal := rowGetD row "SKU" (PyVal.str "")

/-- scraper_service.py line 7:
`website = row.get("WEBSITE") or row.get("URL") or row.get("BASE_URL")`. -/
def websiteOf (row : Row) : PyVal :=
  pyOr (pyOr (rowGetN row "WEBSITE") (rowGetN row "URL")) (rowGetN row "BASE_URL")

/-- Python `product_url or ""`. -/
def urlOrEmpty : Option String → String
  | Option.none => ""
  | some u => if u.isEmpty then "" else u

/-- Python truthiness of `product_url` (an optional string): falsy when
`None` or empty. -/
def optStrTruthy : Option String → Bool
  | Option.none => false
  | some s => !s.isEmpty

/-- scraper_service.py `enrich_row_with_scraped_data`, instrumented
with the chronological fetch events. -/
def enrich_row_with_scraped_data_t (uj : String → String → String)
    (net : Net) (pset : List String → List String) (row : Row) :
    Row × List Ev :=
  let name := rowName row
  let sku := rowSku row
  let website := websiteOf row
  if pyTruthy website then
    let fp := find_product_url_t uj net (pyFormat website) name sku
    let product_url := fp.1
    let row1 := rowSet row "SCRAPED_PRODUCT_URL" (PyVal.str (urlOrEmpty product_url))
    if optStrTruthy product_url then
      let purl := (product_url).getD ""
      let sp := scrape_product_t pset net purl
      let scraped := sp.1
      let row2 :=
        if pyTruthy (rowGetN row1 "DESCRIPTION_HTML") then row1
        else rowSet row1 "DESCRIPTION_HTML" (sgetDescription scraped)
      let row3 :=
        if pyTruthy (rowGetN row2 "TITLE") then row2
        else rowSet row2 "TITLE" (sgetTitle scraped)
      let row4 :=
        if pyTruthy (rowGetN row3 "PRICE") then row3
        else rowSet row3 "PRICE" (sgetPrice scraped)
      let row5 := rowSet row4 "IMAGES" (PyVal.str (String.intercalate ", " (sgetImages scraped)))
      let row6 := rowSet row5 "VARIANTS" (PyVal.str (String.intercalate ", " (sgetVariants scraped)))
      (row6, fp.2 ++ sp.2)
    else (row1, fp.2)
  else (row, [])

/-- scraper_service.py `enrich_row_with_scraped_data` (result only). -/
def enrich_row_with_scraped_data (uj : String → String → String)
    (net : Net) (pset : List String → List String) (row : Row) : Row :=
  (enrich_row_with_scraped_data_t uj net pset row).1

/-! ### Helper lemmas -/

theorem rowLookup_rowSet (row : Row) (k k0 : String) (v : PyVal) :
    rowLookup (rowSet row k v) k0 =
      if k = k0 then some v else rowLookup row k0 := by
  induction row with
  | nil =>
    by_cases h : k = k0 <;> simp [rowSet, rowLookup, h]
  | cons p rest ih =>
    obtain ⟨k1, v1⟩ := p
    by_cases h1 : k1 = k
    · subst h1
      by_cases h2 : k1 = k0 <;> simp [rowSet, rowLookup, h2]
    · by_cases h2 : k1 = k0
      · subst h2
        have hk : ¬ k = k1 := fun h => h1 h.symm
        simp [rowSet, rowLookup, h1, hk]
      · simp [rowSet, rowLookup, h1, h2, ih]

theorem rowLookup_rowSet_self (row : Row) (k : String) (v : PyVal) :
    rowLookup (rowSet row k v) k = some v := by
  simp [rowLookup_rowSet]

theorem rowLookup_rowSet_ne (row : Row) (k k0 : String) (v : PyVal)
    (h : k ≠ k0) : rowLookup (rowSet row k v) k0 = rowLookup row k0 := by
  simp [rowLookup_rowSet, h]

theorem rowGetN_rowSet_ne (row : Row) (k k0 : String) (v : PyVal)
    (h : k ≠ k0) : rowGetN (rowSet row k v) k0 = rowGetN row k0 := by
  simp [rowGetN, rowGetD, rowLookup_rowSet_ne _ _ _ _ h]

/-- The term loop never performs the external-fallback fetch: every
event it records is a `search` event. -/
theorem try_terms_no_google (uj : String → String → String) (net : Net)
    (base_url platform : String) (terms : List PyVal) :
    (try_terms uj net base_url platform terms).2.filter isGoogleEv = [] := by
  induction terms with
  | nil => simp [try_terms]
  | cons t rest ih =>
    by_cases ht : pyTruthy t
    · simp only [try_terms, ht, if_true]
      cases hs : get_search_page net
          (build_search_url platform base_url (pyFormat t)) with
      | none => simpa [isGoogleEv] using ih
      | some res =>
        by_cases hok : response_ok res.status
        · simp only [hok, if_true]
          cases hc : extract_candidate uj base_url res.body.anchors with
          | none => simpa [isGoogleEv] using ih
          | some u => simp [isGoogleEv]
        · simp only [hok, if_false]
          simpa [isGoogleEv] using ih
    · simpa [try_terms, ht] using ih

/-! ### Claim C9 -/

/-- C9. For every row whose website/site field (the chain
`row.get("WEBSITE") or row.get("URL") or row.get("BASE_URL")`) is empty
or absent, `enrich_row_with_scraped_data` returns the row identical
field-for-field to its input and performs no network activity (its
fetch-event trace is empty). -/
theorem C9_missing_site_identity (uj : String → String → String)
    (net : Net) (pset : List String → List String) (row : Row)
    (h : pyTruthy (websiteOf row) = false) :
    enrich_row_with_scraped_data_t uj net pset row = (row, []) := by
  unfold enrich_row_with_scraped_data_t
  simp [h]

/-- Witness for C9 at a concrete row with a blank WEBSITE field. -/
theorem C9_missing_site_identity_witness :
    pyTruthy (websiteOf [("TITLE", PyVal.str "Mug"), ("WEBSITE", PyVal.str "")]) = false ∧
    enrich_row_with_scraped_data_t (fun b r => b ++ r)
      (fun _ => FetchOutcome.raise) List.dedup
      [("TITLE", PyVal.str "Mug"), ("WEBSITE", PyVal.str "")] =
      ([("TITLE", PyVal.str "Mug"), ("WEBSITE", PyVal.str "")], []) :=
  ⟨by decide, C9_missing_site_identity _ _ _ _ (by decide)⟩

/-! ### Claim C4 -/

/-- The network used by the C4 counterexample: every request raises. -/
def net4 : Net := fun _ => FetchOutcome.raise

/-- The row used by the C4 counterexample. -/
def row4 : Row := [("WEBSITE", PyVal.str "http://x")]

/-- C4 counterexample.  The claim states that when the homepage fetch is
unavailable no write to SCRAPED_PRODUCT_URL occurs; on the concrete row
`{WEBSITE: "http://x"}` with a network on which every request raises,
the code does write SCRAPED_PRODUCT_URL (with the empty string): the
field is absent in the input row and present, with value `""`, in the
output row. -/
theorem C4_counterexample :
    rowLookup row4 "SCRAPED_PRODUCT_URL" = Option.none ∧
    rowLookup (enrich_row_with_scraped_data (fun b r => b ++ r) net4 List.dedup row4)
        "SCRAPED_PRODUCT_URL" = some (PyVal.str "") := by
  constructor
  · decide
  · decide

/-- C4 as amended.  For every row whose website field is a non-empty
string `w`, when the homepage fetch is unavailable `find_product_url`
returns none after attempting only the homepage request, and the row
passes through otherwise unenriched — but SCRAPED_PRODUCT_URL is
written: it is set to the empty string. -/
theorem C4_unreachable_site (uj : String → String → String)
    (net : Net) (pset : List String → List String) (row : Row) (w : String)
    (hw : websiteOf row = PyVal.str w) (hne : w ≠ "")
    (hfail : optRespTruthy (get_search_page net w) = false) :
    enrich_row_with_scraped_data_t uj net pset row =
      (rowSet row "SCRAPED_PRODUCT_URL" (PyVal.str ""), [Ev.home w]) ∧
    find_product_url_t uj net w (rowName row) (rowSku row) =
      (Option.none, [Ev.home w]) := by
  have hfind : find_product_url_t uj net w (rowName row) (rowSku row) =
      (Option.none, [Ev.home w]) := by
    unfold find_product_url_t
    cases hnet : net w with
    | raise => simp [get_search_page, hnet]
    | resp s d =>
      have hok : response_ok s = false := by
        simpa [optRespTruthy, get_search_page, hnet] using hfail
      simp [get_search_page, hnet, hok]
  refine ⟨?_, hfind⟩
  unfold enrich_row_with_scraped_data_t
  have hie : w.isEmpty = false := by
    cases hcase : w.isEmpty with
    | false => rfl
    | true => exact absurd ((String.isEmpty_iff w).mp hcase) hne
  have htr : pyTruthy (websiteOf row) = true := by
    simp [hw, pyTruthy, hie]
  have hfmt : pyFormat (websiteOf row) = w := by simp [hw, pyFormat]
  simp [htr, hfmt, hfind, urlOrEmpty, optStrTruthy, hie]

/-- Witness for C4 as amended, at the counterexample inputs. -/
theorem C4_unreachable_site_witness :
    enrich_row_with_scraped_data_t (fun b r => b ++ r) net4 List.dedup row4 =
      (rowSet row4 "SCRAPED_PRODUCT_URL" (PyVal.str ""), [Ev.home "http://x"]) ∧
    find_product_url_t (fun b r => b ++ r) net4 "http://x" (rowName row4) (rowSku row4) =
      (Option.none, [Ev.home "http://x"]) :=
  C4_unreachable_site _ _ _ _ _ (by decide) (by decide) (by decide)

/-! ### Claim C3 -/

/-- The network used by the C3 counterexample: every URL answers with a
status-300 response (a non-2xx status outside [400, 600); `requests`
follows only 301/302/303/307/308, so a 300 response reaches the
caller). -/
def net3 : Net := fun _ => FetchOutcome.resp 300 emptyDoc

/-- C3 counterexample.  The claim states that any non-2xx response
yields the "unavailable" value.  On a network answering status 300
(which is not a 2xx status), `fetch` returns the response itself, not
the unavailable value `none`, and the callers' truthiness test
(`Response.ok`, false only for statuses in [400, 600)) treats it as
available. -/
theorem C3_counterexample :
    fetch net3 "http://a" = some ⟨300, emptyDoc⟩ ∧
    get_search_page net3 "http://a" = some ⟨300, emptyDoc⟩ ∧
    optRespTruthy (fetch net3 "http://a") = true ∧
    ¬ (200 ≤ 300 ∧ 300 ≤ 299) := by
  refine ⟨rfl, rfl, rfl, by decide⟩

/-- C3 as amended.  `fetch` and `get_search_page` behave identically:
they return `None` exactly when the underlying request raises (timeout,
connection error, ...) — no exception propagates past the Fetcher
boundary (both are total functions of the network outcome) — and
otherwise return the response unchanged, whatever its status code.  A
caller's truthiness test on the result additionally treats responses
with status in [400, 600) as unavailable; every other status, including
non-2xx statuses below 400, is treated as available. -/
theorem C3_fetch_boundary (net : Net) (url : String) :
    (fetch net url = Option.none ↔ net url = FetchOutcome.raise) ∧
    get_search_page net url = fetch net url ∧
    (∀ s : Nat, ∀ d : HtmlDoc,
      net url = FetchOutcome.resp s d → fetch net url = some ⟨s, d⟩) ∧
    (optRespTruthy (fetch net url) = true ↔
      ∃ s : Nat, ∃ d : HtmlDoc,
        net url = FetchOutcome.resp s d ∧ response_ok s = true) := by
  cases hnet : net url with
  | raise =>
    refine ⟨by simp [fetch, hnet], by simp [fetch, get_search_page, hnet], ?_, ?_⟩
    · intro s d h
      exact absurd h (by simp)
    · simp [fetch, hnet, optRespTruthy]
  | resp s0 d0 =>
    refine ⟨by simp [fetch, hnet], by simp [fetch, get_search_page, hnet], ?_, ?_⟩
    · intro s d h
      cases h
      simp [fetch, hnet]
    · constructor
      · intro h
        refine ⟨s0, d0, rfl, ?_⟩
        simpa [fetch, hnet, optRespTruthy] using h
      · rintro ⟨s, d, h, hok⟩
        cases h
        simpa [fetch, hnet, optRespTruthy] using hok

/-- Witness for C3 as amended, at a concrete network and URL. -/
theorem C3_fetch_boundary_witness :
    (fetch net4 "http://a" = Option.none ↔ net4 "http://a" = FetchOutcome.raise) ∧
    get_search_page net4 "http://a" = fetch net4 "http://a" ∧
    (∀ s : Nat, ∀ d : HtmlDoc,
      net4 "http://a" = FetchOutcome.resp s d → fetch net4 "http://a" = some ⟨s, d⟩) ∧
    (optRespTruthy (fetch net4 "http://a") = true ↔
      ∃ s : Nat, ∃ d : HtmlDoc,
        net4 "http://a" = FetchOutcome.resp s d ∧ response_ok s = true) :=
  C3_fetch_boundary net4 "http://a"

/-! ### Claim C8 -/

/-- Lookup through a conditional fill-if-blank write at another key is
unchanged. -/
theorem rowLookup_setOrKeep (r : Row) (c : Prop) [Decidable c]
    (k k0 : String) (v : PyVal) (h : k ≠ k0) :
    rowLookup (if c then r else rowSet r k v) k0 = rowLookup r k0 := by
  split
  · rfl
  · exact rowLookup_rowSet_ne _ _ _ _ h

/-- C8 as amended.  The SCRAPED_PRODUCT_URL field of the output row is
either exactly the input row's value (left untouched, when the site
field is blank) or a string value — never `None`.  The written string is
not guaranteed to be an absolute URL: a candidate produced by the
external search fallback is the raw stripped href, which may be
relative (see the counterexample). -/
theorem C8_scraped_url_never_none (uj : String → String → String)
    (net : Net) (pset : List String → List String) (row : Row) :
    rowLookup (enrich_row_with_scraped_data uj net pset row) "SCRAPED_PRODUCT_URL" =
      rowLookup row "SCRAPED_PRODUCT_URL" ∨
    ∃ s : String,
      rowLookup (enrich_row_with_scraped_data uj net pset row) "SCRAPED_PRODUCT_URL" =
        some (PyVal.str s) := by
  unfold enrich_row_with_scraped_data enrich_row_with_scraped_data_t
  by_cases hws : pyTruthy (websiteOf row)
  · right
    refine ⟨urlOrEmpty (find_product_url_t uj net (pyFormat (websiteOf row))
      (rowName row) (rowSku row)).1, ?_⟩
    simp only [hws, if_true]
    by_cases hpu : optStrTruthy (find_product_url_t uj net (pyFormat (websiteOf row))
        (rowName row) (rowSku row)).1
    · simp only [hpu, if_true]
      rw [rowLookup_rowSet_ne _ _ _ _ (by decide), rowLookup_rowSet_ne _ _ _ _ (by decide),
        rowLookup_setOrKeep _ _ _ _ _ (by decide), rowLookup_setOrKeep _ _ _ _ _ (by decide),
        rowLookup_setOrKeep _ _ _ _ _ (by decide), rowLookup_rowSet_self]
    · rw [Bool.not_eq_true] at hpu
      simp only [hpu, Bool.false_eq_true, if_false]
      rw [rowLookup_rowSet_self]
  · left
    simp [hws]

/-- The Google-results document of the C8 counterexample: one anchor
with the site-relative href "/product/abc". -/
def gdoc8 : HtmlDoc :=
  ⟨"", [⟨"/product/abc", false⟩], Option.none, Option.none, Option.none, [], []⟩

/-- The network of the C8 counterexample: the homepage answers with an
unrecognized body, the on-site search raises, and the Google fallback
answers with `gdoc8`. -/
def net8 : Net := fun u =>
  if u = "http://s" then FetchOutcome.resp 200 emptyDoc
  else if u = "https://www.google.com/search?q=n%20site%3Ahttp%3A//s" then
    FetchOutcome.resp 200 gdoc8
  else FetchOutcome.raise

/-- The row of the C8 counterexample. -/
def row8 : Row := [("WEBSITE", PyVal.str "http://s"), ("TITLE", PyVal.str "n")]

/-- C8 counterexample.  The claim states the written value is always an
absolute URL or the empty string.  On this concrete run the candidate
comes from the external search fallback, whose href is returned
verbatim after stripping: the written value "/product/abc" is a
site-relative reference — it neither starts with "http" (the absolute
marker the source itself uses) nor is it empty. -/
theorem C8_counterexample :
    rowLookup (enrich_row_with_scraped_data (fun b r => b ++ r) net8 List.dedup row8)
        "SCRAPED_PRODUCT_URL" = some (PyVal.str "/product/abc") ∧
    strStartsWith "/product/abc" "http" = false ∧
    "/product/abc" ≠ "" := by
  refine ⟨by decide, by decide, by decide⟩

/-! ### Claim C1 -/

/-- Lookup distributes over a conditional row. -/
theorem rowLookup_ite (c : Prop) [Decidable c] (r1 r2 : Row) (k : String) :
    rowLookup (if c then r1 else r2) k =
      if c then rowLookup r1 k else rowLookup r2 k := by
  split <;> rfl

/-- C1.  For every row whose existing TITLE (respectively PRICE,
DESCRIPTION_HTML) value is non-blank (Python-truthy: present, not None
and not the empty string), `enrich_row_with_scraped_data` leaves that
field unchanged, whatever the network — and hence whatever the scraped
product — contains.  Consequently a scraped value is written to one of
these fields only when the row's existing value is absent or blank. -/
theorem C1_vendor_text_fields_authoritative (uj : String → String → String)
    (net : Net) (pset : List String → List String) (row : Row) (f : String)
    (hf : f = "TITLE" ∨ f = "PRICE" ∨ f = "DESCRIPTION_HTML")
    (hv : pyTruthy (rowGetN row f) = true) :
    rowLookup (enrich_row_with_scraped_data uj net pset row) f = rowLookup row f := by
  simp only [rowGetN, rowGetD] at hv
  rcases hf with hf | hf | hf <;> subst hf <;>
  · unfold enrich_row_with_scraped_data enrich_row_with_scraped_data_t
    by_cases hws : pyTruthy (websiteOf row)
    · by_cases hpu : optStrTruthy (find_product_url_t uj net (pyFormat (websiteOf row))
          (rowName row) (rowSku row)).1
      · simp [hws, hpu, rowLookup_rowSet, rowLookup_ite, rowGetN, rowGetD, hv]
      · rw [Bool.not_eq_true] at hpu
        simp [hws, hpu, rowLookup_rowSet]
    · simp [hws]

/-- Witness for C1: a row with a non-blank TITLE keeps it even though
the scraped page offers a different title. -/
theorem C1_witness :
    (pyTruthy (rowGetN [("TITLE", PyVal.str "Vendor mug"), ("WEBSITE", PyVal.str "http://s")]
        "TITLE") = true) ∧
    rowLookup (enrich_row_with_scraped_data (fun b r => b ++ r) net4 List.dedup
        [("TITLE", PyVal.str "Vendor mug"), ("WEBSITE", PyVal.str "http://s")]) "TITLE" =
      rowLookup [("TITLE", PyVal.str "Vendor mug"), ("WEBSITE", PyVal.str "http://s")] "TITLE" :=
  ⟨by decide, C1_vendor_text_fields_authoritative _ _ _ _ _ (Or.inl rfl) (by decide)⟩

/-! ### Claim C2 -/

/-- C2.  For every row for which discovery produced a product URL and
its product page was successfully reached, `enrich_row_with_scraped_data`
sets IMAGES and VARIANTS to the comma-joined scraped lists
unconditionally — the row is arbitrary, so in particular pre-existing
non-blank IMAGES / VARIANTS values are overwritten, and an empty
scraped list clears them to the empty string. -/
theorem C2_images_variants_unconditional (uj : String → String → String)
    (net : Net) (pset : List String → List String) (row : Row)
    (w purl : String) (tr : List Ev)
    (hw : websiteOf row = PyVal.str w) (hne : w ≠ "")
    (hfind : find_product_url_t uj net w (rowName row) (rowSku row) = (some purl, tr))
    (hpne : purl ≠ "")
    (hreach : optRespTruthy (fetch net purl) = true) :
    rowLookup (enrich_row_with_scraped_data uj net pset row) "IMAGES" =
      some (PyVal.str (String.intercalate ", " (sgetImages (scrape_product pset net purl)))) ∧
    rowLookup (enrich_row_with_scraped_data uj net pset row) "VARIANTS" =
      some (PyVal.str (String.intercalate ", " (sgetVariants (scrape_product pset net purl)))) := by
  have hie : w.isEmpty = false := by
    cases hcase : w.isEmpty with
    | false => rfl
    | true => exact absurd ((String.isEmpty_iff w).mp hcase) hne
  have hpie : purl.isEmpty = false := by
    cases hcase : purl.isEmpty with
    | false => rfl
    | true => exact absurd ((String.isEmpty_iff purl).mp hcase) hpne
  have htr : pyTruthy (websiteOf row) = true := by simp [hw, pyTruthy, hie]
  have hfmt : pyFormat (websiteOf row) = w := by simp [hw, pyFormat]
  unfold enrich_row_with_scraped_data enrich_row_with_scraped_data_t
  simp [htr, hfmt, hfind, optStrTruthy, hpie, rowLookup_rowSet, rowLookup_ite,
    scrape_product]

/-- Network for the C2 and C10 witnesses: a homepage with an
unrecognized body, a search page whose first anchor is a product link,
a product page for C2, everything else raising.  The product page
carries a title, one image (twice, via lazy-load and plain src) and two
variant options behind a placeholder. -/
def net2 : Net := fun u =>
  if u = "http://s" then FetchOutcome.resp 200 emptyDoc
  else if u = "http://s/search?q=k" then
    FetchOutcome.resp 200 ⟨"", [⟨"/products/i", false⟩], Option.none, Option.none,
      Option.none, [], []⟩
  else if u = "http://s/products/i" then
    FetchOutcome.resp 200 ⟨"", [], some "Scraped title", some "$5", some "<div>d</div>",
      [⟨some "http://img/1.jpg", Option.none⟩, ⟨Option.none, some "http://img/1.jpg"⟩],
      ["Choose an option", "Red", "Blue"]⟩
  else FetchOutcome.raise

/-- Row for the C2 witness: IMAGES and VARIANTS are non-blank before
enrichment. -/
def row2 : Row :=
  [("WEBSITE", PyVal.str "http://s"), ("SKU", PyVal.str "k"),
   ("IMAGES", PyVal.str "http://old/keep.jpg"), ("VARIANTS", PyVal.str "Old")]

/-- Witness for C2 at a concrete run in which the previously non-blank
IMAGES and VARIANTS values are replaced by the scraped ones. -/
theorem C2_images_variants_unconditional_witness :
    rowLookup (enrich_row_with_scraped_data (fun b r => b ++ r) net2 List.dedup row2)
        "IMAGES" =
      some (PyVal.str (String.intercalate ", "
        (sgetImages (scrape_product List.dedup net2 "http://s/products/i")))) ∧
    rowLookup (enrich_row_with_scraped_data (fun b r => b ++ r) net2 List.dedup row2)
        "VARIANTS" =
      some (PyVal.str (String.intercalate ", "
        (sgetVariants (scrape_product List.dedup net2 "http://s/products/i")))) :=
  C2_images_variants_unconditional (fun b r => b ++ r) net2 List.dedup row2
    "http://s" "http://s/products/i"
    [Ev.home "http://s", Ev.search "http://s/search?q=k"]
    (by decide) (by decide) (by decide) (by decide) (by decide)

/-! ### Claim C10 -/

/-- C10.  When discovery returns a (non-empty) product URL but the
fetch of that product page is unavailable, `scrape_product` returns the
empty record `{}`, and `enrich_row_with_scraped_data` then writes the
Python `None` value (not a string) into every blank DESCRIPTION_HTML,
TITLE and PRICE field, and the empty string into IMAGES and VARIANTS,
instead of leaving those fields as they were. -/
theorem C10_unavailable_product_page_writes_none (uj : String → String → String)
    (net : Net) (pset : List String → List String) (row : Row)
    (w purl : String) (tr : List Ev)
    (hw : websiteOf row = PyVal.str w) (hne : w ≠ "")
    (hfind : find_product_url_t uj net w (rowName row) (rowSku row) = (some purl, tr))
    (hpne : purl ≠ "")
    (hunreach : optRespTruthy (fetch net purl) = false) :
    scrape_product pset net purl = Option.none ∧
    (pyTruthy (rowGetN row "DESCRIPTION_HTML") = false →
      rowLookup (enrich_row_with_scraped_data uj net pset row) "DESCRIPTION_HTML" =
        some PyVal.none) ∧
    (pyTruthy (rowGetN row "TITLE") = false →
      rowLookup (enrich_row_with_scraped_data uj net pset row) "TITLE" =
        some PyVal.none) ∧
    (pyTruthy (rowGetN row "PRICE") = false →
      rowLookup (enrich_row_with_scraped_data uj net pset row) "PRICE" =
        some PyVal.none) ∧
    rowLookup (enrich_row_with_scraped_data uj net pset row) "IMAGES" =
      some (PyVal.str "") ∧
    rowLookup (enrich_row_with_scraped_data uj net pset row) "VARIANTS" =
      some (PyVal.str "") := by
  have hie : w.isEmpty = false := by
    cases hcase : w.isEmpty with
    | false => rfl
    | true => exact absurd ((String.isEmpty_iff w).mp hcase) hne
  have hpie : purl.isEmpty = false := by
    cases hcase : purl.isEmpty with
    | false => rfl
    | true => exact absurd ((String.isEmpty_iff purl).mp hcase) hpne
  have htr : pyTruthy (websiteOf row) = true := by simp [hw, pyTruthy, hie]
  have hfmt : pyFormat (websiteOf row) = w := by simp [hw, pyFormat]
  have hscr : scrape_product_t pset net purl = (Option.none, [Ev.product purl]) := by
    unfold scrape_product_t
    cases hnp : net purl with
    | raise => simp [fetch, hnp]
    | resp s d =>
      have hok : response_ok s = false := by
        simpa [optRespTruthy, fetch, hnp] using hunreach
      simp [fetch, hnp, hok]
  refine ⟨by simp [scrape_product, hscr], ?_, ?_, ?_, ?_, ?_⟩
  · intro hd
    simp only [rowGetN, rowGetD] at hd
    unfold enrich_row_with_scraped_data enrich_row_with_scraped_data_t
    simp [htr, hfmt, hfind, optStrTruthy, hpie, hscr, sgetDescription,
      rowLookup_rowSet, rowLookup_ite, rowGetN, rowGetD, hd]
  · intro ht
    simp only [rowGetN, rowGetD] at ht
    unfold enrich_row_with_scraped_data enrich_row_with_scraped_data_t
    simp [htr, hfmt, hfind, optStrTruthy, hpie, hscr, sgetTitle,
      rowLookup_rowSet, rowLookup_ite, rowGetN, rowGetD, ht]
  · intro hp
    simp only [rowGetN, rowGetD] at hp
    unfold enrich_row_with_scraped_data enrich_row_with_scraped_data_t
    simp [htr, hfmt, hfind, optStrTruthy, hpie, hscr, sgetPrice,
      rowLookup_rowSet, rowLookup_ite, rowGetN, rowGetD, hp]
  · unfold enrich_row_with_scraped_data enrich_row_with_scraped_data_t
    simp [htr, hfmt, hfind, optStrTruthy, hpie, hscr, sgetImages,
      rowLookup_rowSet, rowLookup_ite, String.intercalate]
  · unfold enrich_row_with_scraped_data enrich_row_with_scraped_data_t
    simp [htr, hfmt, hfind, optStrTruthy, hpie, hscr, sgetVariants,
      rowLookup_rowSet, rowLookup_ite, String.intercalate]

/-- Network for the C10 witness: homepage and search page answer, the
product page raises. -/
def net10 : Net := fun u =>
  if u = "http://s" then FetchOutcome.resp 200 emptyDoc
  else if u = "http://s/search?q=k" then
    FetchOutcome.resp 200 ⟨"", [⟨"/products/i", false⟩], Option.none, Option.none,
      Option.none, [], []⟩
  else FetchOutcome.raise

/-- Row for the C10 witness: DESCRIPTION_HTML, TITLE and PRICE all
absent (blank). -/
def row10 : Row := [("WEBSITE", PyVal.str "http://s"), ("SKU", PyVal.str "k")]

/-- Witness for C10 at a concrete run whose product-page fetch raises. -/
theorem C10_unavailable_product_page_writes_none_witness :
    scrape_product List.dedup net10 "http://s/products/i" = Option.none ∧
    (pyTruthy (rowGetN row10 "DESCRIPTION_HTML") = false →
      rowLookup (enrich_row_with_scraped_data (fun b r => b ++ r) net10 List.dedup row10)
        "DESCRIPTION_HTML" = some PyVal.none) ∧
    (pyTruthy (rowGetN row10 "TITLE") = false →
      rowLookup (enrich_row_with_scraped_data (fun b r => b ++ r) net10 List.dedup row10)
        "TITLE" = some PyVal.none) ∧
    (pyTruthy (rowGetN row10 "PRICE") = false →
      rowLookup (enrich_row_with_scraped_data (fun b r => b ++ r) net10 List.dedup row10)
        "PRICE" = some PyVal.none) ∧
    rowLookup (enrich_row_with_scraped_data (fun b r => b ++ r) net10 List.dedup row10)
      "IMAGES" = some (PyVal.str "") ∧
    rowLookup (enrich_row_with_scraped_data (fun b r => b ++ r) net10 List.dedup row10)
      "VARIANTS" = some (PyVal.str "") :=
  C10_unavailable_product_page_writes_none (fun b r => b ++ r) net10 List.dedup row10
    "http://s" "http://s/products/i"
    [Ev.home "http://s", Ev.search "http://s/search?q=k"]
    (by decide) (by decide) (by decide) (by decide) (by decide)

/-! ### Claim C5 -/

/-- Modelled from the spec's words, for comparison only: an
order-preserving, duplicate-eliminating collection in first-seen order.
The source instead computes `list(set(imgs))`. -/
def dedupFirst (l : List String) : List String :=
  l.foldl (fun acc x => if x ∈ acc then acc else acc ++ [x]) []

/-- C5 as amended.  On a successfully fetched product page,
`scrape_product` collects each image element's lazy-load attribute
(falling back to the plain source attribute) when it is a non-empty
http-prefixed URL — that is `collect_imgs` — and then eliminates
duplicates via Python's `list(set(...))`: for every admissible set
order, the resulting list is duplicate-free and has exactly the
members of the collected list.  The order of the result is the set's
hash-dependent iteration order, not necessarily first-seen order. -/
theorem C5_images_dedup (pset : List String → List String) (net : Net)
    (url : String) (s : Nat) (d : HtmlDoc)
    (hps : PySetOK pset) (hnet : net url = FetchOutcome.resp s d)
    (hok : response_ok s = true) :
    (sgetImages (scrape_product pset net url)).Nodup ∧
    ∀ x : String, x ∈ sgetImages (scrape_product pset net url) ↔
      x ∈ collect_imgs d.imgs := by
  unfold scrape_product scrape_product_t
  simp only [fetch, hnet, hok, if_true, sgetImages]
  exact ⟨(hps (collect_imgs d.imgs)).1, fun x => (hps (collect_imgs d.imgs)).2 x⟩

/-- Product page of the C5 counterexample: the same absolute image URL
appears in the first and third image elements. -/
def d5 : HtmlDoc :=
  ⟨"", [], Option.none, Option.none, Option.none,
   [⟨Option.none, some "http://a"⟩, ⟨Option.none, some "http://b"⟩,
    ⟨Option.none, some "http://a"⟩], []⟩

/-- Network of the C5 counterexample. -/
def net5 : Net := fun _ => FetchOutcome.resp 200 d5

/-- C5 counterexample.  The claim requires first-seen order.  Python's
set iteration order is unspecified (hash-seed dependent); under the
admissible set order `List.dedup` — duplicate-free with exactly the
members of its input, as `PySetOK` demands — the concrete document `d5`
yields the images in the order ["http://b", "http://a"], which differs
from the first-seen order ["http://a", "http://b"].  The code therefore
does not guarantee the claimed order (the duplicate-elimination part
does hold, see the amended theorem). -/
theorem C5_counterexample :
    PySetOK List.dedup ∧
    dedupFirst (collect_imgs d5.imgs) = ["http://a", "http://b"] ∧
    sgetImages (scrape_product List.dedup net5 "http://p") = ["http://b", "http://a"] ∧
    sgetImages (scrape_product List.dedup net5 "http://p") ≠
      dedupFirst (collect_imgs d5.imgs) := by
  refine ⟨?_, by decide, by decide, by decide⟩
  intro l
  exact ⟨List.nodup_dedup l, fun x => List.mem_dedup⟩

/-- Witness for C5 as amended, at the counterexample page with the
`List.dedup` set order. -/
theorem C5_images_dedup_witness :
    (sgetImages (scrape_product List.dedup net5 "http://p")).Nodup ∧
    ∀ x : String, x ∈ sgetImages (scrape_product List.dedup net5 "http://p") ↔
      x ∈ collect_imgs d5.imgs :=
  C5_images_dedup List.dedup net5 "http://p" 200 d5
    (fun l => ⟨List.nodup_dedup l, fun x => List.mem_dedup⟩) rfl rfl

/-! ### Claim C6 -/

/-- C6.  Discovery tries the terms in the order [sku, name]:
(first conjunct) when the sku term's search page yields a candidate,
`find_product_url` returns it immediately and the only requests made
are the homepage and the sku search — the name term and the external
fallback are never attempted; (second conjunct) a falsy term is skipped
without any request; (third conjunct) when the whole term loop yields
no candidate, the external (Google) fallback request is made exactly
once, after all on-site search requests. -/
theorem C6_fallback_ordering :
    (∀ (uj : String → String → String) (net : Net) (base : String)
       (name : PyVal) (sk : String) (s s2 : Nat) (d d2 : HtmlDoc) (c : String),
       net base = FetchOutcome.resp s d →
       response_ok s = true →
       sk ≠ "" →
       net (build_search_url (detect_platform d.raw) base sk) = FetchOutcome.resp s2 d2 →
       response_ok s2 = true →
       extract_candidate uj base d2.anchors = some c →
       find_product_url_t uj net base name (PyVal.str sk) =
         (some c, [Ev.home base,
           Ev.search (build_search_url (detect_platform d.raw) base sk)])) ∧
    (∀ (uj : String → String → String) (net : Net) (base platform : String)
       (sku : PyVal) (rest : List PyVal),
       pyTruthy sku = false →
       try_terms uj net base platform (sku :: rest) =
         try_terms uj net base platform rest) ∧
    (∀ (uj : String → String → String) (net : Net) (base : String)
       (name sku : PyVal) (s : Nat) (d : HtmlDoc),
       net base = FetchOutcome.resp s d →
       response_ok s = true →
       (try_terms uj net base (detect_platform d.raw) [sku, name]).1 = Option.none →
       (find_product_url_t uj net base name sku).2 =
         Ev.home base :: (try_terms uj net base (detect_platform d.raw) [sku, name]).2 ++
           [Ev.google (google_search (pyFormat name ++ " site:" ++ base))] ∧
       ((find_product_url_t uj net base name sku).2).filter isGoogleEv =
         [Ev.google (google_search (pyFormat name ++ " site:" ++ base))]) := by
  refine ⟨?_, ?_, ?_⟩
  · intro uj net base name sk s s2 d d2 c hnet hok hsk hnet2 hok2 hext
    have hie : sk.isEmpty = false := by
      cases hcase : sk.isEmpty with
      | false => rfl
      | true => exact absurd ((String.isEmpty_iff sk).mp hcase) hsk
    unfold find_product_url_t
    simp only [get_search_page, hnet, hok, if_true]
    unfold try_terms
    simp [pyTruthy, pyFormat, hie, get_search_page, hnet2, hok2, hext]
  · intro uj net base platform sku rest hsku
    conv_lhs => rw [try_terms.eq_def]
    simp [hsku]
  · intro uj net base name sku s d hnet hok hloop
    have h2 : (find_product_url_t uj net base name sku).2 =
        Ev.home base :: (try_terms uj net base (detect_platform d.raw) [sku, name]).2 ++
          [Ev.google (google_search (pyFormat name ++ " site:" ++ base))] := by
      unfold find_product_url_t
      simp only [get_search_page, hnet, hok, if_true]
      rw [hloop]
    refine ⟨h2, ?_⟩
    rw [h2]
    simp [isGoogleEv, try_terms_no_google]

/-- Network for the C6 witness, first conjunct: sku search answers with
a product anchor; the name search URL and the Google URL both raise, so
a request to them would be visible in the trace. -/
def net6 : Net := fun u =>
  if u = "http://s" then FetchOutcome.resp 200 emptyDoc
  else if u = "http://s/search?q=k" then
    FetchOutcome.resp 200 ⟨"", [⟨"/products/i", false⟩], Option.none, Option.none,
      Option.none, [], []⟩
  else FetchOutcome.raise

/-- Network for the C6 witness, third conjunct: only the homepage
answers; both the on-site search and the Google fallback raise. -/
def net6b : Net := fun u =>
  if u = "http://s" then FetchOutcome.resp 200 emptyDoc
  else FetchOutcome.raise

/-- Witness for C6: the sku term "k" short-circuits with the trace
[home, sku-search] and the name term "nm" never fetched; a blank sku is
skipped; and on a candidate-less loop the Google request appears
exactly once, last. -/
theorem C6_fallback_ordering_witness :
    find_product_url_t (fun b r => b ++ r) net6 "http://s" (PyVal.str "nm") (PyVal.str "k") =
      (some "http://s/products/i",
       [Ev.home "http://s", Ev.search "http://s/search?q=k"]) ∧
    try_terms (fun b r => b ++ r) net6 "http://s" "custom"
        [PyVal.str "", PyVal.str "nm"] =
      try_terms (fun b r => b ++ r) net6 "http://s" "custom" [PyVal.str "nm"] ∧
    ((find_product_url_t (fun b r => b ++ r) net6b "http://s" (PyVal.str "nm")
        (PyVal.str "")).2 =
      Ev.home "http://s" :: (try_terms (fun b r => b ++ r) net6b "http://s"
        (detect_platform emptyDoc.raw) [PyVal.str "", PyVal.str "nm"]).2 ++
          [Ev.google (google_search ("nm" ++ " site:" ++ "http://s"))] ∧
     ((find_product_url_t (fun b r => b ++ r) net6b "http://s" (PyVal.str "nm")
        (PyVal.str "")).2).filter isGoogleEv =
      [Ev.google (google_search ("nm" ++ " site:" ++ "http://s"))]) :=
  ⟨C6_fallback_ordering.1 (fun b r => b ++ r) net6 "http://s" (PyVal.str "nm") "k"
      200 200 emptyDoc
      ⟨"", [⟨"/products/i", false⟩], Option.none, Option.none, Option.none, [], []⟩
      "http://s/products/i" (by decide) (by decide) (by decide) (by decide)
      (by decide) (by decide),
   C6_fallback_ordering.2.1 (fun b r => b ++ r) net6 "http://s" "custom"
      (PyVal.str "") [PyVal.str "nm"] (by decide),
   C6_fallback_ordering.2.2 (fun b r => b ++ r) net6b "http://s" (PyVal.str "nm")
      (PyVal.str "") 200 emptyDoc (by decide) (by decide) (by decide)⟩

/-! ### Claim C7 -/

/-- C7 as amended.  When the on-site term loop yields no candidate and
the Google results page is reachable, the fallback applies a single
relaxed rule — the first link whose href contains the substring
"/product" (with a leading slash, not the bare substring "product") —
and returns its href after removing every occurrence of the
search-engine redirect wrapper "/url?q=" and truncating at the first
"&" (dropping trailing tracking parameters); when no such link exists
the fallback yields none. -/
theorem C7_google_fallback_rule (uj : String → String → String) (net : Net)
    (base : String) (name sku : PyVal) (s sg : Nat) (d dg : HtmlDoc)
    (hnet : net base = FetchOutcome.resp s d) (hok : response_ok s = true)
    (hloop : (try_terms uj net base (detect_platform d.raw) [sku, name]).1 = Option.none)
    (hg : net (google_search (pyFormat name ++ " site:" ++ base)) = FetchOutcome.resp sg dg)
    (hgok : response_ok sg = true) :
    find_product_url uj net base name sku =
      (dg.anchors.find? (fun a => strContains a.href "/product")).map
        (fun l => google_strip l.href) := by
  unfold find_product_url find_product_url_t
  simp only [get_search_page, hnet, hok, if_true]
  rw [hloop]
  simp only [get_search_page, hg, hgok, if_true]
  cases dg.anchors.find? (fun a => strContains a.href "/product") with
  | none => rfl
  | some l => rfl

/-- Google results page of the C7 witness: a redirect-wrapped link with
tracking parameters. -/
def gdoc7w : HtmlDoc :=
  ⟨"", [⟨"/url?q=http://s/product/x?y=1&sa=U&ved=2", false⟩],
   Option.none, Option.none, Option.none, [], []⟩

/-- Network of the C7 witness. -/
def net7w : Net := fun u =>
  if u = "http://s" then FetchOutcome.resp 200 emptyDoc
  else if u = "https://www.google.com/search?q=nm%20site%3Ahttp%3A//s" then
    FetchOutcome.resp 200 gdoc7w
  else FetchOutcome.raise

/-- Witness for C7 as amended: the wrapped href is unwrapped and
truncated at the first "&". -/
theorem C7_google_fallback_rule_witness :
    find_product_url (fun b r => b ++ r) net7w "http://s" (PyVal.str "nm") (PyVal.str "") =
      (gdoc7w.anchors.find? (fun a => strContains a.href "/product")).map
        (fun l => google_strip l.href) :=
  C7_google_fallback_rule (fun b r => b ++ r) net7w "http://s" (PyVal.str "nm")
    (PyVal.str "") 200 200 emptyDoc gdoc7w (by decide) (by decide) (by decide)
    (by decide) (by decide)

/-- Google results page of the C7 counterexample: its only link's href
contains the substring "product" but not "/product". -/
def gdoc7 : HtmlDoc :=
  ⟨"", [⟨"product-page.html", false⟩], Option.none, Option.none, Option.none, [], []⟩

/-- Network of the C7 counterexample. -/
def net7 : Net := fun u =>
  if u = "http://s" then FetchOutcome.resp 200 emptyDoc
  else if u = "https://www.google.com/search?q=nm%20site%3Ahttp%3A//s" then
    FetchOutcome.resp 200 gdoc7
  else FetchOutcome.raise

/-- C7 counterexample.  The claim states the fallback returns the first
link whose href contains the substring "product".  On this concrete run
the Google page's only link href "product-page.html" does contain
"product", yet `find_product_url` returns none: the source's selector
requires the substring "/product" with a leading slash. -/
theorem C7_counterexample :
    strContains "product-page.html" "product" = true ∧
    gdoc7.anchors.find? (fun a => strContains a.href "product") =
      some ⟨"product-page.html", false⟩ ∧
    find_product_url (fun b r => b ++ r) net7 "http://s" (PyVal.str "nm") (PyVal.str "") =
      Option.none := by
  refine ⟨by decide, by decide, by decide⟩

end ShopifyScraper
